import Mathlib

/-!
Shallow embedding of `pyslack` (file `pyslack/__init__.py`), a small Slack
HTTP API client, together with proofs about its claims.

Modelling choices:
* JSON values are the inductive `Json`; Python dicts decoded from JSON are
  association lists in source order (a Python dict comprehension with duplicate
  keys keeps the position of the first occurrence and the value of the last,
  which `dset`-style insertion reproduces).
* Wall-clock instants (`datetime.datetime.utcnow()`) are integers; one instant
  `World.now` is observed per dispatched call.
* The HTTP transport (`requests.post`) is a pure stub `World.transport` from
  requests to responses; every performed request is recorded in the `calls`
  field of an operation's result.
* Python exceptions become the `PyError` sum: `SlackError` payloads are kept
  as `Json` (Python exception args are arbitrary objects), `int()` parse
  failures are `valueError`, subscripting `None` or a non-dict is `typeError`,
  a missing dict key is `keyError`, and a JSON decode failure of the response
  body is `jsonDecodeError`.
-/

namespace Pyslack

/-- A decoded JSON value (the result of `response.json()` or a literal). -/
inductive Json where
  | null
  | bool (b : Bool)
  | num (n : Int)
  | str (s : String)
  | arr (elems : List Json)
  | obj (fields : List (String × Json))

/-- Python truthiness (`if not result['ok']`) restricted to JSON-decoded
values: `None`, `False`, `0`, `""`, `[]` and an empty dict are falsy. -/
def Json.truthy : Json → Bool
  | .null => false
  | .bool b => b
  | .num n => n != 0
  | .str s => !s.isEmpty
  | .arr xs => !xs.isEmpty
  | .obj fs => !fs.isEmpty

/-- Subscripting a decoded JSON value with a string key (`d['k']`), as a
total function: `none` when the key is missing or the value is not an
object (Python would raise `KeyError` resp. `TypeError`). -/
def jget : Json → String → Option Json
  | .obj fields, k => (fields.find? (fun p => p.1 == k)).map (fun p => p.2)
  | _, _ => none

/-- Python dict assignment `d[k] = v` on an association list: replace in
place when the key is present, append otherwise. -/
def dset (d : List (String × Json)) (k : String) (v : Json) : List (String × Json) :=
  if d.any (fun p => p.1 == k) then
    d.map (fun p => if p.1 == k then (k, v) else p)
  else
    d ++ [(k, v)]

/-- Python dict lookup `d.get(k)` on an association list. -/
def dget (d : List (String × Json)) (k : String) : Option Json :=
  (d.find? (fun p => p.1 == k)).map (fun p => p.2)

/-- Dict assignment for the string-valued name caches. -/
def dsetS (d : List (String × String)) (k v : String) : List (String × String) :=
  if d.any (fun p => p.1 == k) then
    d.map (fun p => if p.1 == k then (k, v) else p)
  else
    d ++ [(k, v)]

/-- Dict lookup `d.get(k)` for the string-valued name caches. -/
def lookupS (d : List (String × String)) (k : String) : Option String :=
  (d.find? (fun p => p.1 == k)).map (fun p => p.2)

/-- Digit run to a natural number. -/
def digitsToNat (l : List Char) : Nat :=
  l.foldl (fun a c => a * 10 + (c.toNat - 48)) 0

/-- `l` is a nonempty run of decimal digits. -/
def isDigitRun (l : List Char) : Bool :=
  !l.isEmpty && l.all Char.isDigit

/-- Python `int(s)` on a string: optional surrounding spaces, optional sign,
then a nonempty digit run; `none` models the `ValueError` raised otherwise. -/
def pyInt? (s : String) : Option Int :=
  let t := ((s.toList.dropWhile (fun c => c == ' ')).reverse.dropWhile
      (fun c => c == ' ')).reverse
  match t with
  | '+' :: rest => if isDigitRun rest then some (Int.ofNat (digitsToNat rest)) else none
  | '-' :: rest => if isDigitRun rest then some (-(Int.ofNat (digitsToNat rest))) else none
  | rest => if isDigitRun rest then some (Int.ofNat (digitsToNat rest)) else none

/-- `response.headers.get(k)`. The `requests` header mapping is
case-insensitive; the model canonicalises header names to lowercase on
both sides, so lookup is plain association-list lookup. -/
def hget (hs : List (String × String)) (k : String) : Option String :=
  (hs.find? (fun p => p.1 == k)).map (fun p => p.2)

/-- One HTTP POST as performed by `_make_request`: target URL, form data,
TLS-verification flag and optional multipart file payload. -/
structure HttpRequest where
  url : String
  data : List (String × Json)
  verify : Bool
  files : Option String

/-- The transport's answer: status code, headers, and the JSON decoding of
the body (`none` when `response.json()` would fail). -/
structure HttpResponse where
  status : Nat
  headers : List (String × String)
  jsonBody : Option Json

/-- The external world of one operation: the wall clock and the HTTP stub. -/
structure World where
  now : Int
  transport : HttpRequest → HttpResponse

/-- The name/realname record stored per user id in the user cache. -/
structure UserNames where
  name : String
  realname : String
deriving DecidableEq

/-- The mutable client object (`SlackClient.__init__`). -/
structure SlackClient where
  token : String
  verify : Bool
  blocked_until : Option Int
  channel_name_id_map : List (String × String)
  group_name_id_map : List (String × String)
  user_id_name_map : List (String × UserNames)
deriving DecidableEq

/-- A raised Python exception, by kind. -/
inductive PyError where
  | slackError (msg : Json)
  | valueError (msg : String)
  | typeError (msg : String)
  | keyError (key : String)
  | jsonDecodeError

/-- Result of running one client operation: the returned value or raised
exception, the client state afterwards, and the HTTP requests performed. -/
structure OpResult (α : Type) where
  result : Except PyError α
  state : SlackClient
  calls : List HttpRequest

def BASE_URL : String := "https://slack.com/api"

/-- The rendering of a stored deadline inside the rate-limit error message. -/
def fmtTime (t : Int) : String := toString t

/-- The request `_make_request` builds: `url = BASE_URL + '/' + method`,
`params['token'] = self.token`, the client's verify flag, optional files. -/
def reqOf (c : SlackClient) (method : String) (params : List (String × Json))
    (files : Option String) : HttpRequest :=
  { url := BASE_URL ++ "/" ++ method
    data := dset params "token" (Json.str c.token)
    verify := c.verify
    files := files }

/-- The post-blocked-check part of `_make_request`: perform the POST, handle
status 429 (parse `retry-after`, default `'1'` when absent, set
`blocked_until`, raise), otherwise decode JSON, check `result['ok']`, raise
`SlackError(result['error'])` on a falsy `ok`, return the mapping. -/
def mrSend (c : SlackClient) (w : World) (method : String)
    (params : List (String × Json)) (files : Option String) : OpResult Json :=
  if (w.transport (reqOf c method params files)).status = 429 then
    match pyInt? ((hget (w.transport (reqOf c method params files)).headers
        "retry-after").getD "1") with
    | none =>
        ⟨.error (.valueError "invalid literal for int()"), c,
          [reqOf c method params files]⟩
    | some retry_after =>
        ⟨.error (.slackError (.str ("Too many requests - retry after "
            ++ toString retry_after ++ " second(s)"))),
          { c with blocked_until := some (w.now + retry_after) },
          [reqOf c method params files]⟩
  else
    match (w.transport (reqOf c method params files)).jsonBody with
    | none => ⟨.error .jsonDecodeError, c, [reqOf c method params files]⟩
    | some result =>
        match jget result "ok" with
        | none => ⟨.error (.keyError "ok"), c, [reqOf c method params files]⟩
        | some okv =>
            if okv.truthy then
              ⟨.ok result, c, [reqOf c method params files]⟩
            else
              match jget result "error" with
              | none => ⟨.error (.keyError "error"), c, [reqOf c method params files]⟩
              | some errv =>
                  ⟨.error (.slackError errv), c, [reqOf c method params files]⟩

/-- `SlackClient._make_request`: first the rate-limit guard (fail without any
network call while `blocked_until` lies in the future), then `mrSend`. -/
def _make_request (c : SlackClient) (w : World) (method : String)
    (params : List (String × Json)) (files : Option String := none) : OpResult Json :=
  match c.blocked_until with
  | some b =>
      if w.now < b then
        ⟨.error (.slackError (.str ("Too many requests - wait until " ++ fmtTime b))),
          c, []⟩
      else
        mrSend c w method params files
  | none => mrSend c w method params files

/-- `SlackClient.channels_list`: merge `exclude_archived` (normalised via the
`and 1 or 0` idiom to an integer) and dispatch to `channels.list`. -/
def channels_list (c : SlackClient) (w : World) (exclude_archived : Bool := true)
    (params : List (String × Json) := []) : OpResult Json :=
  _make_request c w "channels.list"
    (dset params "exclude_archived" (Json.num (if exclude_archived then 1 else 0)))

/-- One step of the cache-building dict comprehension
`{channel['name']: channel['id'] for channel in channels}`: extract the
`name` and `id` fields (the model restricts both to strings). -/
def entryNameId (j : Json) : Option (String × String) :=
  match jget j "name", jget j "id" with
  | some (.str n), some (.str i) => some (n, i)
  | _, _ => none

/-- The whole comprehension, with the accumulated dict: build the
name-to-id mapping from the fresh list in iteration order, later duplicate
keys overwriting earlier values; `none` when some entry lacks the fields. -/
def buildNameIdMapAux (acc : List (String × String)) :
    List Json → Option (List (String × String))
  | [] => some acc
  | j :: rest =>
      match entryNameId j with
      | some p => buildNameIdMapAux (dsetS acc p.1 p.2) rest
      | none => none

/-- `{channel['name']: channel['id'] for channel in channels}` (also used
for groups, keyed on the same fields). -/
def buildNameIdMap (xs : List Json) : Option (List (String × String)) :=
  buildNameIdMapAux [] xs

/-- Python `s.startswith(pre)`: `pre` is a character-wise prefix of `s`
(modelled on the character lists underlying the strings). -/
def startswith (s pre : String) : Bool :=
  pre.data.isPrefixOf s.data

/-- The Python `name.startswith('#') and name[1:] or name` idiom: strip one
leading `#` unless the remainder is empty (the falsy `''` makes `or` fall
back to the original string). -/
def stripHash (s : String) : String :=
  if startswith s "#" && !(s.drop 1).isEmpty then s.drop 1 else s

/-- `SlackClient.channel_name_to_id`: when forced or the cache dict is
empty, fetch `channels_list()['channels']` and rebuild the cache wholesale;
then strip the sigil and look the name up in the cache. -/
def channel_name_to_id (c : SlackClient) (w : World) (channel_name : String)
    (force_lookup : Bool := false) : OpResult (Option String) :=
  if force_lookup || c.channel_name_id_map.isEmpty then
    match channels_list c w with
    | ⟨.error e, s, calls⟩ => ⟨.error e, s, calls⟩
    | ⟨.ok j, s, calls⟩ =>
        match jget j "channels" with
        | some (.arr chs) =>
            match buildNameIdMap chs with
            | some m =>
                ⟨.ok (lookupS m (stripHash channel_name)),
                  { s with channel_name_id_map := m }, calls⟩
            | none => ⟨.error (.keyError "name or id"), s, calls⟩
        | some _ => ⟨.error (.typeError "channels value not iterable as dicts"), s, calls⟩
        | none => ⟨.error (.keyError "channels"), s, calls⟩
  else
    ⟨.ok (lookupS c.channel_name_id_map (stripHash channel_name)), c, []⟩

/-- `None` becomes JSON null when merged into a params dict; a present id
stays a string. -/
def optStr : Option String → Json
  | some s => .str s
  | none => .null

/-- `SlackClient.channel_history`: resolve the channel via
`channel_name_to_id`, merge the (possibly absent) id under `'channel'`, and
dispatch to `channels.history`. -/
def channel_history (c : SlackClient) (w : World) (channel : String)
    (params : List (String × Json) := []) : OpResult Json :=
  match channel_name_to_id c w channel with
  | ⟨.error e, s, calls⟩ => ⟨.error e, s, calls⟩
  | ⟨.ok cid, s, calls⟩ =>
      match _make_request s w "channels.history" (dset params "channel" (optStr cid)) with
      | ⟨res, s2, calls2⟩ => ⟨res, s2, calls ++ calls2⟩

/-- `SlackClient.groups_list`: like `channels_list`, endpoint `groups.list`. -/
def groups_list (c : SlackClient) (w : World) (exclude_archived : Bool := true)
    (params : List (String × Json) := []) : OpResult Json :=
  _make_request c w "groups.list"
    (dset params "exclude_archived" (Json.num (if exclude_archived then 1 else 0)))

/-- `SlackClient.group_name_to_id`: symmetric to `channel_name_to_id`, on
the group cache and `groups_list()['groups']`. -/
def group_name_to_id (c : SlackClient) (w : World) (group_name : String)
    (force_lookup : Bool := false) : OpResult (Option String) :=
  if force_lookup || c.group_name_id_map.isEmpty then
    match groups_list c w with
    | ⟨.error e, s, calls⟩ => ⟨.error e, s, calls⟩
    | ⟨.ok j, s, calls⟩ =>
        match jget j "groups" with
        | some (.arr gs) =>
            match buildNameIdMap gs with
            | some m =>
                ⟨.ok (lookupS m (stripHash group_name)),
                  { s with group_name_id_map := m }, calls⟩
            | none => ⟨.error (.keyError "name or id"), s, calls⟩
        | some _ => ⟨.error (.typeError "groups value not iterable as dicts"), s, calls⟩
        | none => ⟨.error (.keyError "groups"), s, calls⟩
  else
    ⟨.ok (lookupS c.group_name_id_map (stripHash group_name)), c, []⟩

/-- `SlackClient.group_history`: resolve the group, merge the id under
`'channel'`, dispatch to `groups.history`. -/
def group_history (c : SlackClient) (w : World) (group : String)
    (params : List (String × Json) := []) : OpResult Json :=
  match group_name_to_id c w group with
  | ⟨.error e, s, calls⟩ => ⟨.error e, s, calls⟩
  | ⟨.ok gid, s, calls⟩ =>
      match _make_request s w "groups.history" (dset params "channel" (optStr gid)) with
      | ⟨res, s2, calls2⟩ => ⟨res, s2, calls ++ calls2⟩

/-- `SlackClient.users_list`: plain dispatch to `users.list`. -/
def users_list (c : SlackClient) (w : World)
    (params : List (String × Json) := []) : OpResult Json :=
  _make_request c w "users.list" params

/-- One step of the user-cache comprehension: extract `user['id']`,
`user['name']` and `user['profile']['real_name']` (strings in the model). -/
def entryUser (j : Json) : Option (String × UserNames) :=
  match jget j "id", jget j "name" with
  | some (.str i), some (.str n) =>
      match jget j "profile" with
      | some p =>
          match jget p "real_name" with
          | some (.str rn) => some (i, ⟨n, rn⟩)
          | _ => none
      | none => none
  | _, _ => none

/-- Dict assignment for the user cache. -/
def dsetU (d : List (String × UserNames)) (k : String) (v : UserNames) :
    List (String × UserNames) :=
  if d.any (fun p => p.1 == k) then
    d.map (fun p => if p.1 == k then (k, v) else p)
  else
    d ++ [(k, v)]

/-- Dict lookup `d.get(k)` for the user cache. -/
def lookupU (d : List (String × UserNames)) (k : String) : Option UserNames :=
  (d.find? (fun p => p.1 == k)).map (fun p => p.2)

/-- The user-cache comprehension
`{user['id']: ... for user in users}`, in iteration order. -/
def buildUserMapAux (acc : List (String × UserNames)) :
    List Json → Option (List (String × UserNames))
  | [] => some acc
  | j :: rest =>
      match entryUser j with
      | some p => buildUserMapAux (dsetU acc p.1 p.2) rest
      | none => none

def buildUserMap (xs : List Json) : Option (List (String × UserNames)) :=
  buildUserMapAux [] xs

/-- The shared refresh phase of `user_id_to_name` / `user_name_to_id`:
when forced or the user cache is empty, fetch `users_list()['members']` and
rebuild the cache wholesale; returns the state to continue from. -/
def userCacheRefresh (c : SlackClient) (w : World) (force_lookup : Bool) :
    OpResult Unit :=
  if force_lookup || c.user_id_name_map.isEmpty then
    match users_list c w with
    | ⟨.error e, s, calls⟩ => ⟨.error e, s, calls⟩
    | ⟨.ok j, s, calls⟩ =>
        match jget j "members" with
        | some (.arr us) =>
            match buildUserMap us with
            | some m => ⟨.ok (), { s with user_id_name_map := m }, calls⟩
            | none => ⟨.error (.keyError "id, name or real_name"), s, calls⟩
        | some _ => ⟨.error (.typeError "members value not iterable as dicts"), s, calls⟩
        | none => ⟨.error (.keyError "members"), s, calls⟩
  else
    ⟨.ok (), c, []⟩

/-- `SlackClient.user_id_to_name`: refresh as needed, then
`self.user_id_name_map.get(user_id)['realname']` (resp. `['name']`) — when
the id is absent, `get` yields `None` and the subscript raises `TypeError`. -/
def user_id_to_name (c : SlackClient) (w : World) (user_id : String)
    (get_realname : Bool := true) (force_lookup : Bool := false) : OpResult String :=
  match userCacheRefresh c w force_lookup with
  | ⟨.error e, s, calls⟩ => ⟨.error e, s, calls⟩
  | ⟨.ok _, s, calls⟩ =>
      match lookupU s.user_id_name_map user_id with
      | none => ⟨.error (.typeError "NoneType object is not subscriptable"), s, calls⟩
      | some names =>
          ⟨.ok (if get_realname then names.realname else names.name), s, calls⟩

/-- The linear scan of `user_name_to_id`: first cache entry whose short
name or real name matches, else `None`. -/
def scanUsers (d : List (String × UserNames)) (user_name : String) : Option String :=
  (d.find? (fun p => p.2.name == user_name || p.2.realname == user_name)).map
    (fun p => p.1)

/-- `SlackClient.user_name_to_id`: refresh as needed, then scan the cache. -/
def user_name_to_id (c : SlackClient) (w : World) (user_name : String)
    (force_lookup : Bool := false) : OpResult (Option String) :=
  match userCacheRefresh c w force_lookup with
  | ⟨.error e, s, calls⟩ => ⟨.error e, s, calls⟩
  | ⟨.ok _, s, calls⟩ =>
      ⟨.ok (scanUsers s.user_id_name_map user_name), s, calls⟩

/-- `SlackClient._channel_is_name`: a channel argument in name form starts
with the `#` sigil. -/
def _channel_is_name (channel : String) : Bool :=
  startswith channel "#"

/-- `SlackClient.chat_post_message`: merge channel (as given) and text,
dispatch to `chat.postMessage`. -/
def chat_post_message (c : SlackClient) (w : World) (channel text : String)
    (params : List (String × Json) := []) : OpResult Json :=
  _make_request c w "chat.postMessage"
    (dset (dset params "channel" (Json.str channel)) "text" (Json.str text))

/-- `SlackClient.chat_update_message`: resolve a name-form channel to an id
first (`chat.update` rejects names), merge channel, text and `ts`,
dispatch. -/
def chat_update_message (c : SlackClient) (w : World) (channel text timestamp : String)
    (params : List (String × Json) := []) : OpResult Json :=
  if _channel_is_name channel then
    match channel_name_to_id c w channel with
    | ⟨.error e, s, calls⟩ => ⟨.error e, s, calls⟩
    | ⟨.ok cid, s, calls⟩ =>
        match _make_request s w "chat.update"
            (dset (dset (dset params "channel" (optStr cid)) "text" (Json.str text))
              "ts" (Json.str timestamp)) with
        | ⟨res, s2, calls2⟩ => ⟨res, s2, calls ++ calls2⟩
  else
    _make_request c w "chat.update"
      (dset (dset (dset params "channel" (Json.str channel)) "text" (Json.str text))
        "ts" (Json.str timestamp))

/-- The `file_upload` loop over `channels`: only name-form entries are
looked up and appended to `channel_ids`; entries not starting with `#` are
skipped entirely. Threads the client state through the repeated lookups. -/
def resolveNameChannels (w : World) :
    SlackClient → List String →
      Except PyError (List (Option String)) × SlackClient × List HttpRequest
  | c, [] => (.ok [], c, [])
  | c, ch :: rest =>
      if _channel_is_name ch then
        match channel_name_to_id c w ch with
        | ⟨.error e, s, calls⟩ => (.error e, s, calls)
        | ⟨.ok cid, s, calls⟩ =>
            match resolveNameChannels w s rest with
            | (.error e, s2, calls2) => (.error e, s2, calls ++ calls2)
            | (.ok ids, s2, calls2) => (.ok (cid :: ids), s2, calls ++ calls2)
      else
        resolveNameChannels w c rest

/-- Sequence the collected lookup results: `none` as soon as some element
is a `None` left by a failed name lookup. -/
def seqIds : List (Option String) → Option (List String)
  | [] => some []
  | none :: _ => none
  | some s :: rest => (seqIds rest).map (fun ss => s :: ss)

/-- Python `','.join(ids)`: raises `TypeError` when some element is the
`None` left by a failed name lookup. -/
def joinIds (ids : List (Option String)) : Except PyError String :=
  match seqIds ids with
  | some ss => .ok (String.intercalate "," ss)
  | none => .error (.typeError "sequence item: expected str instance, NoneType found")

/-- `SlackClient.file_upload`: gather ids of name-form entries, join with
commas under `'channels'`, attach the file, dispatch to `files.upload`. -/
def file_upload (c : SlackClient) (w : World) (channels : List String)
    (file : String) (params : List (String × Json) := []) : OpResult Json :=
  match resolveNameChannels w c channels with
  | (.error e, s, calls) => ⟨.error e, s, calls⟩
  | (.ok ids, s, calls) =>
      match joinIds ids with
      | .error e => ⟨.error e, s, calls⟩
      | .ok joined =>
          match _make_request s w "files.upload" (dset params "channels" (Json.str joined))
              (some file) with
          | ⟨res, s2, calls2⟩ => ⟨res, s2, calls ++ calls2⟩

/-- The client operations, for statements quantifying over every operation. -/
inductive Op where
  | makeRequest (method : String) (params : List (String × Json)) (files : Option String)
  | channelsList (exclude_archived : Bool) (params : List (String × Json))
  | channelNameToId (name : String) (force : Bool)
  | channelHistory (channel : String) (params : List (String × Json))
  | groupsList (exclude_archived : Bool) (params : List (String × Json))
  | groupNameToId (name : String) (force : Bool)
  | groupHistory (group : String) (params : List (String × Json))
  | usersList (params : List (String × Json))
  | userIdToName (id : String) (realname : Bool) (force : Bool)
  | userNameToId (name : String) (force : Bool)
  | chatPostMessage (channel text : String) (params : List (String × Json))
  | chatUpdateMessage (channel text ts : String) (params : List (String × Json))
  | fileUpload (channels : List String) (file : String) (params : List (String × Json))

/-- The client state after running one operation from state `c` in world `w`. -/
def opState (c : SlackClient) (w : World) : Op → SlackClient
  | .makeRequest m p f => (_make_request c w m p f).state
  | .channelsList ea p => (channels_list c w ea p).state
  | .channelNameToId n f => (channel_name_to_id c w n f).state
  | .channelHistory ch p => (channel_history c w ch p).state
  | .groupsList ea p => (groups_list c w ea p).state
  | .groupNameToId n f => (group_name_to_id c w n f).state
  | .groupHistory g p => (group_history c w g p).state
  | .usersList p => (users_list c w p).state
  | .userIdToName i r f => (user_id_to_name c w i r f).state
  | .userNameToId n f => (user_name_to_id c w n f).state
  | .chatPostMessage ch t p => (chat_post_message c w ch t p).state
  | .chatUpdateMessage ch t ts p => (chat_update_message c w ch t ts p).state
  | .fileUpload chs f p => (file_upload c w chs f p).state

/-! Spec-level predicates used by the cache-snapshot invariant. -/

/-- `m` is built wholesale from the `channels` field of some response
the transport produced in world `w`. -/
def freshChannels (w : World) (m : List (String × String)) : Prop :=
  ∃ req j arr, (w.transport req).jsonBody = some j ∧
    jget j "channels" = some (.arr arr) ∧ buildNameIdMap arr = some m

/-- `m` is built wholesale from the `groups` field of some response. -/
def freshGroups (w : World) (m : List (String × String)) : Prop :=
  ∃ req j arr, (w.transport req).jsonBody = some j ∧
    jget j "groups" = some (.arr arr) ∧ buildNameIdMap arr = some m

/-- `m` is built wholesale from the `members` field of some response. -/
def freshUsers (w : World) (m : List (String × UserNames)) : Prop :=
  ∃ req j arr, (w.transport req).jsonBody = some j ∧
    jget j "members" = some (.arr arr) ∧ buildUserMap arr = some m

/-- Each cache is either untouched or replaced wholesale by a mapping built
from one fresh list response — never merged entry-wise. -/
def cacheEvolution (c : SlackClient) (w : World) (c2 : SlackClient) : Prop :=
  (c2.channel_name_id_map = c.channel_name_id_map ∨ freshChannels w c2.channel_name_id_map) ∧
  (c2.group_name_id_map = c.group_name_id_map ∨ freshGroups w c2.group_name_id_map) ∧
  (c2.user_id_name_map = c.user_id_name_map ∨ freshUsers w c2.user_id_name_map)

/-! Concrete fixtures for counterexample and witness statements. -/

/-- A fresh client: empty caches, no rate-limit deadline. -/
def cFresh : SlackClient := ⟨"tok", false, none, [], [], []⟩

/-- A client whose rate-limit deadline is instant 10. -/
def cBlocked10 : SlackClient := ⟨"tok", false, some 10, [], [], []⟩

/-- A client whose channel cache maps `general` to `C1`. -/
def cCacheGeneral : SlackClient := ⟨"tok", false, none, [("general", "C1")], [], []⟩

/-- A client with channel and group caches containing a name with and
without a literal `#`. -/
def cSigil : SlackClient :=
  ⟨"tok", false, none, [("x", "C1"), ("#x", "C9")], [("x", "G1"), ("#x", "G9")], []⟩

/-- A client whose caches are all nonempty (for cache-hit witnesses). -/
def cAllCaches : SlackClient :=
  ⟨"tok", false, none, [("general", "C1")], [("dev", "G1")], [("U1", ⟨"alice", "Alice A"⟩)]⟩

/-- A world whose transport always answers a plain `ok` JSON object at
instant 0 (never consulted by cache-hit paths). -/
def wPlain : World := ⟨0, fun _ => ⟨200, [], some (Json.obj [("ok", Json.bool true)])⟩⟩

/-- A world at instant 5 (before deadline 10). -/
def wAt5 : World := ⟨5, fun _ => ⟨200, [], some (Json.obj [("ok", Json.bool true)])⟩⟩

/-- A world answering 429 with a malformed `retry-after` header. -/
def w429Soon : World := ⟨100, fun _ => ⟨429, [("retry-after", "soon")], none⟩⟩

/-- A world answering 429 with `retry-after: 5`. -/
def w429Five : World := ⟨100, fun _ => ⟨429, [("retry-after", "5")], none⟩⟩

/-- A world answering every request with an `ok` response whose `channels`
list is empty. -/
def wEmptyChannels : World :=
  ⟨0, fun _ => ⟨200, [], some (Json.obj [("ok", Json.bool true), ("channels", Json.arr [])])⟩⟩

/-- A world answering every request with `ok: false, error: channel_not_found`. -/
def wApiErr : World :=
  ⟨0, fun _ => ⟨200, [],
    some (Json.obj [("ok", Json.bool false), ("error", Json.str "channel_not_found")])⟩⟩

/-- A world whose `users.list` answer holds the single member `U1`. -/
def wUsers : World :=
  ⟨0, fun _ => ⟨200, [],
    some (Json.obj [("ok", Json.bool true),
      ("members", Json.arr [Json.obj [("id", Json.str "U1"), ("name", Json.str "alice"),
        ("profile", Json.obj [("real_name", Json.str "Alice A")])]])])⟩⟩

/-! ## Helper lemmas -/

/-- `mrSend` either leaves the state alone or only sets `blocked_until`,
and the latter happens only on a 429 response with a parsable header. -/
theorem mrSend_state_cases (c : SlackClient) (w : World) (method : String)
    (params : List (String × Json)) (files : Option String) :
    (mrSend c w method params files).state = c ∨
    ((w.transport (reqOf c method params files)).status = 429 ∧
      ∃ k, pyInt? ((hget (w.transport (reqOf c method params files)).headers
          "retry-after").getD "1") = some k ∧
        (mrSend c w method params files).state =
          { c with blocked_until := some (w.now + k) }) := by
  unfold mrSend
  split
  next h429 =>
    split
    next => exact Or.inl rfl
    next k hk => exact Or.inr ⟨h429, k, hk, rfl⟩
  next =>
    split
    next => exact Or.inl rfl
    next j hj =>
      split
      next => exact Or.inl rfl
      next okv hok =>
        split
        next => exact Or.inl rfl
        next =>
          split
          next => exact Or.inl rfl
          next => exact Or.inl rfl

/-- `_make_request` either leaves the state alone or only sets
`blocked_until`, only on a 429 response. -/
theorem make_request_state_cases (c : SlackClient) (w : World) (method : String)
    (params : List (String × Json)) (files : Option String) :
    (_make_request c w method params files).state = c ∨
    ((w.transport (reqOf c method params files)).status = 429 ∧
      ∃ k, pyInt? ((hget (w.transport (reqOf c method params files)).headers
          "retry-after").getD "1") = some k ∧
        (_make_request c w method params files).state =
          { c with blocked_until := some (w.now + k) }) := by
  unfold _make_request
  split
  next b hb =>
    split
    next => exact Or.inl rfl
    next => exact mrSend_state_cases c w method params files
  next => exact mrSend_state_cases c w method params files

/-- A successfully returned mapping is the decoded body of the performed
request's response. -/
theorem mrSend_ok_body (c : SlackClient) (w : World) (method : String)
    (params : List (String × Json)) (files : Option String) (j : Json)
    (h : (mrSend c w method params files).result = .ok j) :
    (w.transport (reqOf c method params files)).jsonBody = some j := by
  unfold mrSend at h
  split at h
  next =>
    split at h <;> simp at h
  next =>
    split at h
    next => simp at h
    next res hres =>
      split at h
      next => simp at h
      next okv hok =>
        split at h
        next =>
          simp at h
          rw [hres, h]
        next =>
          split at h <;> simp at h

/-- A successful `_make_request` result is the decoded body of some
response produced by the transport. -/
theorem make_request_ok_body (c : SlackClient) (w : World) (method : String)
    (params : List (String × Json)) (files : Option String) (j : Json)
    (h : (_make_request c w method params files).result = .ok j) :
    ∃ req, (w.transport req).jsonBody = some j := by
  unfold _make_request at h
  split at h
  next b hb =>
    split at h
    next => simp at h
    next => exact ⟨_, mrSend_ok_body c w method params files j h⟩
  next => exact ⟨_, mrSend_ok_body c w method params files j h⟩

/-- When the rate-limit guard does not fire, `_make_request` is the send
phase. -/
theorem make_request_not_blocked (c : SlackClient) (w : World) (method : String)
    (params : List (String × Json)) (files : Option String)
    (hnb : c.blocked_until = none ∨ ∃ b, c.blocked_until = some b ∧ ¬ w.now < b) :
    _make_request c w method params files = mrSend c w method params files := by
  unfold _make_request
  rcases hnb with h | ⟨b, hb, hge⟩
  · rw [h]
  · rw [hb]
    simp [hge]

/-! ## Claim C1 -/

/-- C1: while `blocked_until` is set and the wall clock is strictly before
it, `_make_request` raises a rate-limited `SlackError` whose message
carries the stored deadline, performs no HTTP request, and leaves the
client state unchanged. -/
theorem C1_blocked_short_circuit (c : SlackClient) (w : World) (method : String)
    (params : List (String × Json)) (files : Option String) (b : Int)
    (hb : c.blocked_until = some b) (hlt : w.now < b) :
    _make_request c w method params files =
      ⟨.error (.slackError (.str ("Too many requests - wait until " ++ fmtTime b))),
        c, []⟩ := by
  unfold _make_request
  rw [hb]
  simp [hlt]

/-- C1 witness: a client blocked until instant 10, called at instant 5. -/
theorem C1_blocked_short_circuit_witness :
    _make_request cBlocked10 wAt5 "channels.list" [] none =
      ⟨.error (.slackError (.str ("Too many requests - wait until " ++ fmtTime 10))),
        cBlocked10, []⟩ :=
  C1_blocked_short_circuit cBlocked10 wAt5 "channels.list" [] none 10 rfl (by decide)

/-! ## Claim C2 -/

/-- C2 counterexample: on a 429 response whose `retry-after` header is
present but malformed (`"soon"`), the code raises `ValueError` from
`int()` and leaves `blocked_until` unset — it does not default to 1 second
and does not raise the rate-limited `SlackError` the claim requires. -/
theorem C2_retry_after_malformed_cex :
    (_make_request cFresh w429Soon "chat.postMessage" [] none).result =
      .error (.valueError "invalid literal for int()") ∧
    (_make_request cFresh w429Soon "chat.postMessage" [] none).state.blocked_until = none ∧
    (_make_request cFresh w429Soon "chat.postMessage" [] none).state.blocked_until ≠
      some (w429Soon.now + 1) := by
  refine ⟨rfl, rfl, ?_⟩
  have h2 : (_make_request cFresh w429Soon "chat.postMessage" [] none).state.blocked_until
      = none := rfl
  rw [h2]
  exact fun h => Option.noConfusion h

/-- C2 (amended): on a 429 response, when the `retry-after` header value —
the string `'1'` when the header is absent — parses as an integer `k`, the
client sets `blocked_until` to now + `k` seconds and raises a rate-limited
`SlackError` without returning any body; when the header is present but
malformed, `int()` raises `ValueError` and `blocked_until` is unchanged.
An absent header always yields the default `k` = 1. -/
theorem C2_rate_limit_429 (c : SlackClient) (w : World) (method : String)
    (params : List (String × Json)) (files : Option String)
    (hnb : c.blocked_until = none ∨ ∃ b, c.blocked_until = some b ∧ ¬ w.now < b)
    (h429 : (w.transport (reqOf c method params files)).status = 429) :
    (∀ k, pyInt? ((hget (w.transport (reqOf c method params files)).headers
          "retry-after").getD "1") = some k →
        _make_request c w method params files =
          ⟨.error (.slackError (.str ("Too many requests - retry after "
              ++ toString k ++ " second(s)"))),
            { c with blocked_until := some (w.now + k) },
            [reqOf c method params files]⟩) ∧
    (pyInt? ((hget (w.transport (reqOf c method params files)).headers
          "retry-after").getD "1") = none →
        _make_request c w method params files =
          ⟨.error (.valueError "invalid literal for int()"), c,
            [reqOf c method params files]⟩) ∧
    ((hget (w.transport (reqOf c method params files)).headers "retry-after") = none →
      pyInt? ((hget (w.transport (reqOf c method params files)).headers
          "retry-after").getD "1") = some 1) := by
  rw [make_request_not_blocked c w method params files hnb]
  refine ⟨?_, ?_, ?_⟩
  · intro k hk
    unfold mrSend
    rw [if_pos h429, hk]
  · intro hk
    unfold mrSend
    rw [if_pos h429, hk]
  · intro habs
    rw [habs]
    rfl

/-- C2 witness: a 429 with `retry-after: 5` at instant 100 sets the
deadline to 105 and raises the rate-limited error. -/
theorem C2_rate_limit_429_witness :
    _make_request cFresh w429Five "chat.postMessage" [] none =
      ⟨.error (.slackError (.str ("Too many requests - retry after "
          ++ toString (5 : Int) ++ " second(s)"))),
        { cFresh with blocked_until := some (w429Five.now + 5) },
        [reqOf cFresh "chat.postMessage" [] none]⟩ :=
  (C2_rate_limit_429 cFresh w429Five "chat.postMessage" [] none (Or.inl rfl) rfl).1 5 rfl

/-! ## Claim C3 -/

/-- C3: for a dispatched request whose response status is not 429 and whose
body decodes to a mapping `j` carrying an `ok` field: a falsy `ok` raises a
`SlackError` carrying exactly the server-supplied `error` value, and a
truthy `ok` returns the full mapping `j` unchanged. -/
theorem C3_api_response (c : SlackClient) (w : World) (method : String)
    (params : List (String × Json)) (files : Option String)
    (hnb : c.blocked_until = none ∨ ∃ b, c.blocked_until = some b ∧ ¬ w.now < b)
    (hs : ¬ (w.transport (reqOf c method params files)).status = 429)
    (j : Json) (hj : (w.transport (reqOf c method params files)).jsonBody = some j)
    (okv : Json) (hok : jget j "ok" = some okv) :
    (okv.truthy = true →
      _make_request c w method params files =
        ⟨.ok j, c, [reqOf c method params files]⟩) ∧
    (okv.truthy = false → ∀ ev, jget j "error" = some ev →
      _make_request c w method params files =
        ⟨.error (.slackError ev), c, [reqOf c method params files]⟩) := by
  rw [make_request_not_blocked c w method params files hnb]
  unfold mrSend
  constructor
  · intro ht
    simp only [if_neg hs, hj, hok, ht, if_true]
  · intro hf ev hev
    simp only [if_neg hs, hj, hok, hf, Bool.false_eq_true, if_false, hev]

/-- C3 witness: a stub transport answering
`ok: false, error: channel_not_found` makes the dispatch raise a
`SlackError` carrying exactly that string. -/
theorem C3_api_response_witness :
    _make_request cFresh wApiErr "channels.list" [] none =
      ⟨.error (.slackError (.str "channel_not_found")), cFresh,
        [reqOf cFresh "channels.list" [] none]⟩ :=
  (C3_api_response cFresh wApiErr "channels.list" [] none (Or.inl rfl)
    (by decide) _ rfl _ rfl).2 rfl _ rfl

/-! ## Claim C9 -/

/-- C9: `_make_request` mutates no client field other than `blocked_until`;
it mutates `blocked_until` only when the response status is 429 (setting it
to a definite deadline), and never resets it to the unset state. -/
theorem C9_make_request_frame (c : SlackClient) (w : World) (method : String)
    (params : List (String × Json)) (files : Option String) :
    ((_make_request c w method params files).state.token = c.token ∧
     (_make_request c w method params files).state.verify = c.verify ∧
     (_make_request c w method params files).state.channel_name_id_map =
       c.channel_name_id_map ∧
     (_make_request c w method params files).state.group_name_id_map =
       c.group_name_id_map ∧
     (_make_request c w method params files).state.user_id_name_map =
       c.user_id_name_map) ∧
    ((_make_request c w method params files).state.blocked_until = c.blocked_until ∨
      ((w.transport (reqOf c method params files)).status = 429 ∧
        ∃ k, (_make_request c w method params files).state.blocked_until =
          some (w.now + k))) ∧
    (c.blocked_until ≠ none →
      (_make_request c w method params files).state.blocked_until ≠ none) := by
  rcases make_request_state_cases c w method params files with h | ⟨h429, k, _, h⟩
  · rw [h]
    exact ⟨⟨rfl, rfl, rfl, rfl, rfl⟩, Or.inl rfl, fun hne => hne⟩
  · rw [h]
    refine ⟨⟨rfl, rfl, rfl, rfl, rfl⟩, Or.inr ⟨h429, k, rfl⟩, fun _ => ?_⟩
    simp

/-! ## Claim C5 -/

/-- C5 (code defect): when the looked-up id is absent from the user cache —
whether the cache was pre-populated or just refreshed — `user_id_to_name`
subscripts the `None` returned by `dict.get` and raises `TypeError`, for
either value of `get_realname`, instead of returning an explicit
not-found outcome. -/
theorem C5_user_lookup_missing_id_crashes :
    (user_id_to_name cAllCaches wPlain "U404" true false).result =
      .error (.typeError "NoneType object is not subscriptable") ∧
    (user_id_to_name cAllCaches wPlain "U404" false false).result =
      .error (.typeError "NoneType object is not subscriptable") ∧
    (user_id_to_name cFresh wUsers "U404" true false).result =
      .error (.typeError "NoneType object is not subscriptable") ∧
    (user_id_to_name cFresh wUsers "U404" false false).result =
      .error (.typeError "NoneType object is not subscriptable") :=
  ⟨rfl, rfl, rfl, rfl⟩

/-! ## Claim C6 -/

/-- C6 counterexample: with a cache state holding both `x` and the literal
name `#x`, `channel_name_to_id ('#' + "#x")` strips only one sigil and
resolves `#x` (to `C9`) while `channel_name_to_id "#x"` resolves `x` (to
`C1`): the two calls differ, refuting the claim for every name `n`. -/
theorem C6_sigil_strip_cex :
    (channel_name_to_id cSigil wPlain ("#" ++ "#x") false).result = .ok (some "C9") ∧
    (channel_name_to_id cSigil wPlain "#x" false).result = .ok (some "C1") ∧
    (Except.ok (some "C9") : Except PyError (Option String)) ≠ .ok (some "C1") := by
  refine ⟨rfl, rfl, ?_⟩
  intro h
  injection h with h1
  injection h1 with h2
  exact absurd h2 (by decide)

/-- A name without the sigil is used as the lookup key unchanged. -/
theorem stripHash_of_not_sigil (n : String) (h : startswith n "#" = false) :
    stripHash n = n := by
  simp [stripHash, h]

/-- Prefixing one `#` to a nonempty name strips back to the name itself. -/
theorem stripHash_hash_append (n : String) (hne : n ≠ "") :
    stripHash ("#" ++ n) = n := by
  obtain ⟨l⟩ := n
  have hsw : startswith ("#" ++ String.mk l) "#" = true := by
    show ['#'].isPrefixOf ('#' :: l) = true
    simp [List.isPrefixOf]
  have hdrop : ("#" ++ String.mk l).drop 1 = String.mk l := by
    rw [String.drop_eq]
    rfl
  have hie : (String.mk l).isEmpty = false := by
    cases hie : (String.mk l).isEmpty with
    | false => rfl
    | true => exact absurd ((String.isEmpty_iff (String.mk l)).mp hie) hne
  unfold stripHash
  rw [hdrop, hsw, hie]
  simp

/-- C6 (amended): for every nonempty name `n` that does not itself begin
with `#`, `channel_name_to_id ('#' + n)` and `channel_name_to_id n` agree
in any state (and likewise for groups): exactly one leading sigil is
stripped before the cache lookup. For `n` empty or already beginning with
`#` the two calls can differ (see the counterexample). -/
theorem C6_sigil_strip (c : SlackClient) (w : World) (n : String) (fl : Bool)
    (h1 : startswith n "#" = false) (h2 : n ≠ "") :
    channel_name_to_id c w ("#" ++ n) fl = channel_name_to_id c w n fl ∧
    group_name_to_id c w ("#" ++ n) fl = group_name_to_id c w n fl := by
  have hkey : stripHash ("#" ++ n) = stripHash n := by
    rw [stripHash_hash_append n h2, stripHash_of_not_sigil n h1]
  constructor
  · unfold channel_name_to_id
    rw [hkey]
  · unfold group_name_to_id
    rw [hkey]

/-- C6 witness: `#general` and `general` resolve identically. -/
theorem C6_sigil_strip_witness :
    channel_name_to_id cAllCaches wPlain ("#" ++ "general") false =
      channel_name_to_id cAllCaches wPlain "general" false ∧
    group_name_to_id cAllCaches wPlain ("#" ++ "general") false =
      group_name_to_id cAllCaches wPlain "general" false :=
  C6_sigil_strip cAllCaches wPlain "general" false rfl (by decide)

/-! ## Claim C7 -/

/-- With a nonempty channel cache and `force_lookup` left false,
`channel_name_to_id` is a pure cache lookup: no request, no state change. -/
theorem channel_name_to_id_cached (c : SlackClient) (w : World) (name : String)
    (h : c.channel_name_id_map ≠ []) :
    channel_name_to_id c w name false =
      ⟨.ok (lookupS c.channel_name_id_map (stripHash name)), c, []⟩ := by
  have hie : c.channel_name_id_map.isEmpty = false := by
    cases hm : c.channel_name_id_map with
    | nil => exact absurd hm h
    | cons a l => rfl
  unfold channel_name_to_id
  simp [hie]

/-- Group analogue of `channel_name_to_id_cached`. -/
theorem group_name_to_id_cached (c : SlackClient) (w : World) (name : String)
    (h : c.group_name_id_map ≠ []) :
    group_name_to_id c w name false =
      ⟨.ok (lookupS c.group_name_id_map (stripHash name)), c, []⟩ := by
  have hie : c.group_name_id_map.isEmpty = false := by
    cases hm : c.group_name_id_map with
    | nil => exact absurd hm h
    | cons a l => rfl
  unfold group_name_to_id
  simp [hie]

/-- C7 counterexample: when the fresh `channels` list is empty, a first
call to `channel_name_to_id` completes (returning `None`) but rebuilds an
empty cache, and the subsequent call with `force_lookup` false performs the
`channels.list` request again. -/
theorem C7_cache_hit_cex :
    (channel_name_to_id cFresh wEmptyChannels "general" false).result = .ok none ∧
    (channel_name_to_id cFresh wEmptyChannels "general" false).state.channel_name_id_map
      = [] ∧
    ((channel_name_to_id
        (channel_name_to_id cFresh wEmptyChannels "general" false).state
        wEmptyChannels "general" false).calls.map (fun r => r.url)) =
      ["https://slack.com/api/channels.list"] :=
  ⟨rfl, rfl, rfl⟩

/-- C7 (amended): whenever the channel cache is nonempty — in particular
after any call that installed a nonempty mapping — every call to
`channel_name_to_id` with `force_lookup` left false performs no
`channels.list` request (no HTTP call at all) and is served from the
cached name-to-id mapping. A completed call that installs an empty mapping
leaves the cache empty, and a subsequent call does re-trigger the list
request. -/
theorem C7_cache_hit (c : SlackClient) (w : World) (name : String)
    (h : c.channel_name_id_map ≠ []) :
    channel_name_to_id c w name false =
      ⟨.ok (lookupS c.channel_name_id_map (stripHash name)), c, []⟩ :=
  channel_name_to_id_cached c w name h

/-- C7 witness: cache-hit lookup on a concrete populated cache. -/
theorem C7_cache_hit_witness :
    channel_name_to_id cAllCaches wPlain "general" false =
      ⟨.ok (lookupS cAllCaches.channel_name_id_map (stripHash "general")),
        cAllCaches, []⟩ :=
  C7_cache_hit cAllCaches wPlain "general" (by decide)

/-! ## Claim C10 -/

/-- C10: when the name lookup completes with a miss (`None`),
`channel_history` (resp. `group_history`) does not surface the miss: it
still hands the request to the dispatch routine, with JSON null merged into
the parameters under `'channel'`. -/
theorem C10_history_null_on_miss (c : SlackClient) (w : World)
    (channel group : String) (params params2 : List (String × Json))
    (hc : (channel_name_to_id c w channel).result = .ok none)
    (hg : (group_name_to_id c w group).result = .ok none) :
    (channel_history c w channel params =
      ⟨(_make_request (channel_name_to_id c w channel).state w "channels.history"
          (dset params "channel" Json.null)).result,
        (_make_request (channel_name_to_id c w channel).state w "channels.history"
          (dset params "channel" Json.null)).state,
        (channel_name_to_id c w channel).calls ++
          (_make_request (channel_name_to_id c w channel).state w "channels.history"
            (dset params "channel" Json.null)).calls⟩) ∧
    (group_history c w group params2 =
      ⟨(_make_request (group_name_to_id c w group).state w "groups.history"
          (dset params2 "channel" Json.null)).result,
        (_make_request (group_name_to_id c w group).state w "groups.history"
          (dset params2 "channel" Json.null)).state,
        (group_name_to_id c w group).calls ++
          (_make_request (group_name_to_id c w group).state w "groups.history"
            (dset params2 "channel" Json.null)).calls⟩) := by
  constructor
  · unfold channel_history
    split
    next e s calls heq =>
      rw [heq] at hc
      simp at hc
    next cid s calls heq =>
      rw [heq] at hc
      simp at hc
      subst hc
      rw [heq]
      split
      next res s2 calls2 heq2 =>
        dsimp only
        rw [show optStr (none : Option String) = Json.null from rfl] at heq2
        rw [heq2]
  · unfold group_history
    split
    next e s calls heq =>
      rw [heq] at hg
      simp at hg
    next gid s calls heq =>
      rw [heq] at hg
      simp at hg
      subst hg
      rw [heq]
      split
      next res s2 calls2 heq2 =>
        dsimp only
        rw [show optStr (none : Option String) = Json.null from rfl] at heq2
        rw [heq2]

/-- C10 witness: a populated cache missing the looked-up names. -/
theorem C10_history_null_on_miss_witness :
    channel_history cAllCaches wPlain "missing" [] =
      ⟨(_make_request (channel_name_to_id cAllCaches wPlain "missing").state wPlain
          "channels.history" (dset [] "channel" Json.null)).result,
        (_make_request (channel_name_to_id cAllCaches wPlain "missing").state wPlain
          "channels.history" (dset [] "channel" Json.null)).state,
        (channel_name_to_id cAllCaches wPlain "missing").calls ++
          (_make_request (channel_name_to_id cAllCaches wPlain "missing").state wPlain
            "channels.history" (dset [] "channel" Json.null)).calls⟩ ∧
    group_history cAllCaches wPlain "missing" [] =
      ⟨(_make_request (group_name_to_id cAllCaches wPlain "missing").state wPlain
          "groups.history" (dset [] "channel" Json.null)).result,
        (_make_request (group_name_to_id cAllCaches wPlain "missing").state wPlain
          "groups.history" (dset [] "channel" Json.null)).state,
        (group_name_to_id cAllCaches wPlain "missing").calls ++
          (_make_request (group_name_to_id cAllCaches wPlain "missing").state wPlain
            "groups.history" (dset [] "channel" Json.null)).calls⟩ :=
  C10_history_null_on_miss cAllCaches wPlain "missing" "missing" [] [] rfl rfl

/-! ## Claim C4 -/

/-- C4 counterexample: `file_upload(["#general", "C2"], ...)` with
`#general ↦ C1` cached sends `channels = "C1"`: the id-form entry `C2` is
dropped from the loop entirely, not passed through, so the parameter is not
the claimed `"C1,C2"`. -/
theorem C4_file_upload_id_dropped_cex :
    (file_upload cCacheGeneral wPlain ["#general", "C2"] "f.txt" []).calls.map
        (fun r => dget r.data "channels") = [some (Json.str "C1")] ∧
    some (Json.str "C1") ≠ some (Json.str "C1,C2") := by
  refine ⟨rfl, ?_⟩
  intro h
  injection h with h1
  injection h1 with h2
  exact absurd h2 (by decide)

/-- With a nonempty channel cache, the `file_upload` loop is a pure
filter-and-lookup over the name-form entries. -/
theorem resolveNameChannels_cached (w : World) (c : SlackClient)
    (h : c.channel_name_id_map ≠ []) (channels : List String) :
    resolveNameChannels w c channels =
      (.ok (channels.filterMap (fun ch =>
          if _channel_is_name ch then
            some (lookupS c.channel_name_id_map (stripHash ch))
          else none)), c, []) := by
  induction channels with
  | nil => rfl
  | cons ch rest ih =>
      unfold resolveNameChannels
      cases hn : _channel_is_name ch with
      | true =>
          simp [hn, channel_name_to_id_cached c w ch h, ih, List.filterMap_cons]
      | false =>
          simp [hn, ih, List.filterMap_cons]

/-- Sequencing the collected lookup results succeeds when every name-form
entry resolved, and yields the plain list of ids. -/
theorem seqIds_resolved (f : String → Option String) (channels : List String)
    (hres : ∀ ch ∈ channels, _channel_is_name ch = true → (f ch).isSome) :
    seqIds (channels.filterMap (fun ch =>
        if _channel_is_name ch then some (f ch) else none)) =
      some (channels.filterMap (fun ch =>
        if _channel_is_name ch then f ch else none)) := by
  induction channels with
  | nil => rfl
  | cons ch rest ih =>
      have hrest : ∀ x ∈ rest, _channel_is_name x = true → (f x).isSome :=
        fun x hx => hres x (List.mem_cons_of_mem ch hx)
      cases hn : _channel_is_name ch with
      | true =>
          obtain ⟨v, hv⟩ :=
            Option.isSome_iff_exists.mp (hres ch (List.mem_cons_self ch rest) hn)
          simp [List.filterMap_cons, hn, hv, seqIds, ih hrest]
      | false =>
          simp [List.filterMap_cons, hn, ih hrest]

/-- C4 (amended): each `#`-prefixed (name-form) entry of `channels` is
resolved through the channel cache; entries already in id form are omitted
from the loop entirely — they are not passed through — and only the
resolved ids of name-form entries are joined with commas into the
`channels` request parameter. Stated for a populated cache in which every
name-form entry resolves (an unresolved name contributes `None` and makes
the comma-join raise `TypeError`). -/
theorem C4_file_upload_channels (c : SlackClient) (w : World)
    (channels : List String) (file : String) (params : List (String × Json))
    (hne : c.channel_name_id_map ≠ [])
    (hres : ∀ ch ∈ channels, _channel_is_name ch = true →
      (lookupS c.channel_name_id_map (stripHash ch)).isSome) :
    file_upload c w channels file params =
      _make_request c w "files.upload"
        (dset params "channels" (Json.str (String.intercalate ","
          (channels.filterMap (fun ch =>
            if _channel_is_name ch then lookupS c.channel_name_id_map (stripHash ch)
            else none)))))
        (some file) := by
  unfold file_upload
  rw [resolveNameChannels_cached w c hne channels]
  have hjoin : joinIds (channels.filterMap (fun ch =>
      if _channel_is_name ch then some (lookupS c.channel_name_id_map (stripHash ch))
      else none)) =
      .ok (String.intercalate "," (channels.filterMap (fun ch =>
        if _channel_is_name ch then lookupS c.channel_name_id_map (stripHash ch)
        else none))) := by
    unfold joinIds
    rw [seqIds_resolved (fun ch => lookupS c.channel_name_id_map (stripHash ch))
      channels hres]
  dsimp only
  rw [hjoin]
  dsimp only
  rfl

/-- C4 witness: the amended statement at `["#general", "C2"]` with
`general ↦ C1` cached. -/
theorem C4_file_upload_channels_witness :
    file_upload cCacheGeneral wPlain ["#general", "C2"] "f.txt" [] =
      _make_request cCacheGeneral wPlain "files.upload"
        (dset [] "channels" (Json.str (String.intercalate ","
          (["#general", "C2"].filterMap (fun ch =>
            if _channel_is_name ch then
              lookupS cCacheGeneral.channel_name_id_map (stripHash ch)
            else none)))))
        (some "f.txt") :=
  C4_file_upload_channels cCacheGeneral wPlain ["#general", "C2"] "f.txt" []
    (by decide) (by decide)

/-! ## Claim C8 -/

theorem cacheEvolution_refl (c : SlackClient) (w : World) : cacheEvolution c w c :=
  ⟨Or.inl rfl, Or.inl rfl, Or.inl rfl⟩

theorem cacheEvolution_trans (c c2 c3 : SlackClient) (w : World)
    (h1 : cacheEvolution c w c2) (h2 : cacheEvolution c2 w c3) :
    cacheEvolution c w c3 := by
  refine ⟨?_, ?_, ?_⟩
  · rcases h2.1 with h | h
    · rw [h]; exact h1.1
    · exact Or.inr h
  · rcases h2.2.1 with h | h
    · rw [h]; exact h1.2.1
    · exact Or.inr h
  · rcases h2.2.2 with h | h
    · rw [h]; exact h1.2.2
    · exact Or.inr h

theorem make_request_cacheEvolution (c : SlackClient) (w : World) (method : String)
    (params : List (String × Json)) (files : Option String) :
    cacheEvolution c w (_make_request c w method params files).state := by
  rcases make_request_state_cases c w method params files with h | ⟨_, k, _, h⟩ <;>
    rw [h] <;> exact ⟨Or.inl rfl, Or.inl rfl, Or.inl rfl⟩

theorem channels_list_cacheEvolution (c : SlackClient) (w : World) (ea : Bool)
    (p : List (String × Json)) :
    cacheEvolution c w (channels_list c w ea p).state :=
  make_request_cacheEvolution c w "channels.list"
    (dset p "exclude_archived" (Json.num (if ea then 1 else 0))) none

theorem groups_list_cacheEvolution (c : SlackClient) (w : World) (ea : Bool)
    (p : List (String × Json)) :
    cacheEvolution c w (groups_list c w ea p).state :=
  make_request_cacheEvolution c w "groups.list"
    (dset p "exclude_archived" (Json.num (if ea then 1 else 0))) none

theorem users_list_cacheEvolution (c : SlackClient) (w : World)
    (p : List (String × Json)) :
    cacheEvolution c w (users_list c w p).state :=
  make_request_cacheEvolution c w "users.list" p none

theorem channel_name_to_id_cacheEvolution (c : SlackClient) (w : World)
    (n : String) (fl : Bool) :
    cacheEvolution c w (channel_name_to_id c w n fl).state := by
  unfold channel_name_to_id
  split
  next =>
    split
    next e s calls heq =>
      have h3 := channels_list_cacheEvolution c w true []
      rw [heq] at h3
      exact h3
    next j s calls heq =>
      have h3 := channels_list_cacheEvolution c w true []
      rw [heq] at h3
      split
      next chs hj =>
        split
        next m hm =>
          have hok : (channels_list c w true []).result = .ok j := by rw [heq]
          obtain ⟨req, hreq⟩ := make_request_ok_body c w "channels.list" _ none j hok
          exact ⟨Or.inr ⟨req, j, chs, hreq, hj, hm⟩, h3.2.1, h3.2.2⟩
        next hm => exact h3
      next hj => exact h3
      next hj => exact h3
  next => exact cacheEvolution_refl c w

theorem group_name_to_id_cacheEvolution (c : SlackClient) (w : World)
    (n : String) (fl : Bool) :
    cacheEvolution c w (group_name_to_id c w n fl).state := by
  unfold group_name_to_id
  split
  next =>
    split
    next e s calls heq =>
      have h3 := groups_list_cacheEvolution c w true []
      rw [heq] at h3
      exact h3
    next j s calls heq =>
      have h3 := groups_list_cacheEvolution c w true []
      rw [heq] at h3
      split
      next gs hj =>
        split
        next m hm =>
          have hok : (groups_list c w true []).result = .ok j := by rw [heq]
          obtain ⟨req, hreq⟩ := make_request_ok_body c w "groups.list" _ none j hok
          exact ⟨h3.1, Or.inr ⟨req, j, gs, hreq, hj, hm⟩, h3.2.2⟩
        next hm => exact h3
      next hj => exact h3
      next hj => exact h3
  next => exact cacheEvolution_refl c w

theorem userCacheRefresh_cacheEvolution (c : SlackClient) (w : World) (fl : Bool) :
    cacheEvolution c w (userCacheRefresh c w fl).state := by
  unfold userCacheRefresh
  split
  next =>
    split
    next e s calls heq =>
      have h3 := users_list_cacheEvolution c w []
      rw [heq] at h3
      exact h3
    next j s calls heq =>
      have h3 := users_list_cacheEvolution c w []
      rw [heq] at h3
      split
      next us hj =>
        split
        next m hm =>
          have hok : (users_list c w []).result = .ok j := by rw [heq]
          obtain ⟨req, hreq⟩ := make_request_ok_body c w "users.list" _ none j hok
          exact ⟨h3.1, h3.2.1, Or.inr ⟨req, j, us, hreq, hj, hm⟩⟩
        next hm => exact h3
      next hj => exact h3
      next hj => exact h3
  next => exact cacheEvolution_refl c w

theorem channel_history_cacheEvolution (c : SlackClient) (w : World) (ch : String)
    (p : List (String × Json)) :
    cacheEvolution c w (channel_history c w ch p).state := by
  unfold channel_history
  split
  next e s calls heq =>
    have h3 := channel_name_to_id_cacheEvolution c w ch false
    rw [heq] at h3
    exact h3
  next cid s calls heq =>
    have h3 := channel_name_to_id_cacheEvolution c w ch false
    rw [heq] at h3
    split
    next res s2 calls2 heq2 =>
      have h4 := make_request_cacheEvolution s w "channels.history"
        (dset p "channel" (optStr cid)) none
      rw [heq2] at h4
      exact cacheEvolution_trans c s s2 w h3 h4

theorem group_history_cacheEvolution (c : SlackClient) (w : World) (g : String)
    (p : List (String × Json)) :
    cacheEvolution c w (group_history c w g p).state := by
  unfold group_history
  split
  next e s calls heq =>
    have h3 := group_name_to_id_cacheEvolution c w g false
    rw [heq] at h3
    exact h3
  next gid s calls heq =>
    have h3 := group_name_to_id_cacheEvolution c w g false
    rw [heq] at h3
    split
    next res s2 calls2 heq2 =>
      have h4 := make_request_cacheEvolution s w "groups.history"
        (dset p "channel" (optStr gid)) none
      rw [heq2] at h4
      exact cacheEvolution_trans c s s2 w h3 h4

theorem user_id_to_name_cacheEvolution (c : SlackClient) (w : World) (uid : String)
    (r fl : Bool) :
    cacheEvolution c w (user_id_to_name c w uid r fl).state := by
  unfold user_id_to_name
  split
  next e s calls heq =>
    have h3 := userCacheRefresh_cacheEvolution c w fl
    rw [heq] at h3
    exact h3
  next u s calls heq =>
    have h3 := userCacheRefresh_cacheEvolution c w fl
    rw [heq] at h3
    split
    next => exact h3
    next => exact h3

theorem user_name_to_id_cacheEvolution (c : SlackClient) (w : World) (n : String)
    (fl : Bool) :
    cacheEvolution c w (user_name_to_id c w n fl).state := by
  unfold user_name_to_id
  split
  next e s calls heq =>
    have h3 := userCacheRefresh_cacheEvolution c w fl
    rw [heq] at h3
    exact h3
  next u s calls heq =>
    have h3 := userCacheRefresh_cacheEvolution c w fl
    rw [heq] at h3
    exact h3

theorem chat_post_message_cacheEvolution (c : SlackClient) (w : World)
    (ch t : String) (p : List (String × Json)) :
    cacheEvolution c w (chat_post_message c w ch t p).state :=
  make_request_cacheEvolution c w "chat.postMessage"
    (dset (dset p "channel" (Json.str ch)) "text" (Json.str t)) none

theorem chat_update_message_cacheEvolution (c : SlackClient) (w : World)
    (ch t ts : String) (p : List (String × Json)) :
    cacheEvolution c w (chat_update_message c w ch t ts p).state := by
  unfold chat_update_message
  split
  next =>
    split
    next e s calls heq =>
      have h3 := channel_name_to_id_cacheEvolution c w ch false
      rw [heq] at h3
      exact h3
    next cid s calls heq =>
      have h3 := channel_name_to_id_cacheEvolution c w ch false
      rw [heq] at h3
      split
      next res s2 calls2 heq2 =>
        have h4 := make_request_cacheEvolution s w "chat.update"
          (dset (dset (dset p "channel" (optStr cid)) "text" (Json.str t))
            "ts" (Json.str ts)) none
        rw [heq2] at h4
        exact cacheEvolution_trans c s s2 w h3 h4
  next =>
    exact make_request_cacheEvolution c w "chat.update"
      (dset (dset (dset p "channel" (Json.str ch)) "text" (Json.str t))
        "ts" (Json.str ts)) none

theorem resolveNameChannels_cacheEvolution (w : World) (channels : List String)
    (c : SlackClient) :
    cacheEvolution c w (resolveNameChannels w c channels).2.1 := by
  induction channels generalizing c with
  | nil => exact cacheEvolution_refl c w
  | cons ch rest ih =>
      unfold resolveNameChannels
      split
      next =>
        split
        next e s calls heq =>
          have h3 := channel_name_to_id_cacheEvolution c w ch false
          rw [heq] at h3
          exact h3
        next cid s calls heq =>
          have h3 := channel_name_to_id_cacheEvolution c w ch false
          rw [heq] at h3
          split
          next e s2 calls2 heq2 =>
            have h4 := ih s
            rw [heq2] at h4
            exact cacheEvolution_trans c s s2 w h3 h4
          next ids s2 calls2 heq2 =>
            have h4 := ih s
            rw [heq2] at h4
            exact cacheEvolution_trans c s s2 w h3 h4
      next => exact ih c

theorem file_upload_cacheEvolution (c : SlackClient) (w : World)
    (chs : List String) (f : String) (p : List (String × Json)) :
    cacheEvolution c w (file_upload c w chs f p).state := by
  unfold file_upload
  split
  next e s calls heq =>
    have h3 := resolveNameChannels_cacheEvolution w chs c
    rw [heq] at h3
    exact h3
  next ids s calls heq =>
    have h3 := resolveNameChannels_cacheEvolution w chs c
    rw [heq] at h3
    split
    next => exact h3
    next joined hj =>
      split
      next res s2 calls2 heq2 =>
        have h4 := make_request_cacheEvolution s w "files.upload"
          (dset p "channels" (Json.str joined)) (some f)
        rw [heq2] at h4
        exact cacheEvolution_trans c s s2 w h3 h4

/-- C8: every client operation either leaves each of the three name caches
unchanged or replaces it wholesale with a mapping built entirely from the
corresponding list field of one fresh transport response; no operation
inserts, removes, or merges individual entries, so each cache is always
either its previous value or a complete snapshot of its last refresh. -/
theorem C8_cache_snapshot (c : SlackClient) (w : World) (op : Op) :
    cacheEvolution c w (opState c w op) := by
  cases op with
  | makeRequest m p f => exact make_request_cacheEvolution c w m p f
  | channelsList ea p => exact channels_list_cacheEvolution c w ea p
  | channelNameToId n f => exact channel_name_to_id_cacheEvolution c w n f
  | channelHistory ch p => exact channel_history_cacheEvolution c w ch p
  | groupsList ea p => exact groups_list_cacheEvolution c w ea p
  | groupNameToId n f => exact group_name_to_id_cacheEvolution c w n f
  | groupHistory g p => exact group_history_cacheEvolution c w g p
  | usersList p => exact users_list_cacheEvolution c w p
  | userIdToName i r f => exact user_id_to_name_cacheEvolution c w i r f
  | userNameToId n f => exact user_name_to_id_cacheEvolution c w n f
  | chatPostMessage ch t p => exact chat_post_message_cacheEvolution c w ch t p
  | chatUpdateMessage ch t ts p =>
      exact chat_update_message_cacheEvolution c w ch t ts p
  | fileUpload chs f p => exact file_upload_cacheEvolution c w chs f p

end Pyslack
